import Mathlib

/-!
Verification of the tab-container selection engine of
`src/packages/primeng/src/tabview/tabview.ts` (classes `TabPanel` and
`TabView`).

The embedding models the mutable state the container operations touch:
each `TabPanel` contributes the booleans `selected`, `disabled`, `closed`,
`loaded`; the `TabView` container holds the ordered list `tabs`, the
two-way-bound `_activeIndex`, the re-entrancy guard
`preventActiveIndexPropagation`, and the dirty flag `tabChanged`.
Panels are identified by their position in `tabs` (the TS code identifies
them by object identity, and `tabs` holds distinct objects, so position is
a faithful identity). Operations that can throw a `TypeError` in the
source (dereferencing the `null` returned by `findSelectedTab`, or
indexing `tabs` with a negative index) return `none`.

DOM-geometry effects (`updateInkBar`, `updateScrollBar`,
`event.preventDefault`, change detection) are outside the modelled state;
emissions of the three `EventEmitter` outputs and the scroll-into-view
request raised by `open` are recorded as an ordered event trace.
-/

namespace TabViewSpec

/-- State of one `TabPanel` (tabview.ts, class `TabPanel`): the fields the
container reads and writes. `selected` and `disabled` are the backing
fields `_selected`/`_disabled` seen through their getters (`!!` coercion);
`closed` and `loaded` are the plain fields, both initially `false`. -/
structure Panel where
  selected : Bool
  disabled : Bool
  closed : Bool
  loaded : Bool
deriving DecidableEq, Repr

/-- The `selected` setter of `TabPanel` (tabview.ts lines 125-133):
`_selected = val; if (val) this.loaded = true`. (The `detectChanges` call
is rendering-only.) -/
def Panel.setSelected (p : Panel) (val : Bool) : Panel :=
  { p with selected := val, loaded := p.loaded || val }

/-- Marks a panel closed, as in `tab.closed = true` (tabview.ts line 778). -/
def Panel.setClosed (p : Panel) : Panel :=
  { p with closed := true }

/-- Container state of `TabView`: the ordered panel list `tabs`, the
backing field `_activeIndex` (a TS `number | undefined`, hence
`Option Int`), the one-shot re-entrancy guard, and the ink-bar dirty
flag. All are `undefined`/falsy before initialization. -/
structure TabState where
  tabs : List Panel
  _activeIndex : Option Int
  preventActiveIndexPropagation : Bool
  tabChanged : Bool
deriving DecidableEq, Repr

/-- Observable effects of one container call: the `activeIndexChange`,
`onChange` and `onClose` emitter outputs, and the scroll-into-view request
issued by `updateScrollBar`. Indices are `Int` because `findTabIndex`
returns `-1` on a miss. -/
inductive Ev where
  | activeIndexChange : Int → Ev
  | change : Int → Ev
  | closeEvent : Int → Ev
  | scrollTo : Int → Ev
deriving DecidableEq, Repr

/-- Replace the panel at position `i` by `f` of it; positions out of range
are untouched (list analogue of mutating one element of `this.tabs`). -/
def modifyAt (f : Panel → Panel) : Nat → List Panel → List Panel
  | _, [] => []
  | 0, p :: ps => f p :: ps
  | i + 1, p :: ps => p :: modifyAt f i ps

/-- Position of the first selected panel: `findSelectedTab` (tabview.ts
lines 781-788) as an index; `none` models its `null` result. -/
def findSelIdx : List Panel → Option Nat
  | [] => none
  | p :: ps => if p.selected then some 0 else (findSelIdx ps).map (· + 1)

/-- Position of the first panel satisfying the loop condition of
`closeTab` (tabview.ts line 771): `!tabPanel.closed && !tab.disabled`,
where `tab` is the panel being closed — so the second conjunct tests the
CLOSING tab's flag, not the candidate's, and is passed in here as
`closingDisabled`. -/
def findReopenIdx (closingDisabled : Bool) : List Panel → Option Nat
  | [] => none
  | p :: ps =>
    if !p.closed && !closingDisabled then some 0
    else (findReopenIdx closingDisabled ps).map (· + 1)

/-- The `findTabIndex` scan (tabview.ts lines 790-799) compares object
identity; since panels are identified with their position, it returns the
position when in range and `-1` otherwise. -/
def findTabIndex (tabs : List Panel) (i : Nat) : Int :=
  if i < tabs.length then (i : Int) else -1

/-- Lines 723-726 of `open`: `let selectedTab = this.findSelectedTab();
if (selectedTab) selectedTab.selected = false` — deselect the first
selected panel if there is one. -/
def deselectCurrent (ts : List Panel) : List Panel :=
  match findSelIdx ts with
  | some j => modifyAt (fun p => p.setSelected false) j ts
  | none => ts

/-- The fallback loop of `closeTab` (tabview.ts lines 769-775): select the
first panel satisfying `!tabPanel.closed && !tab.disabled` (see
`findReopenIdx`); when no panel satisfies it, no selection is made. -/
def reopenFirst (closingDisabled : Bool) (ts : List Panel) : List Panel :=
  match findReopenIdx closingDisabled ts with
  | some j => modifyAt (fun p => p.setSelected true) j ts
  | none => ts

/-- The `open` method (tabview.ts lines 714-741), called with the panel at
position `i`. Returns the new state and the ordered trace of effects:
on the selecting path the code deselects the current `findSelectedTab`
result, sets the dirty flag, selects the target, computes the index, sets
the re-entrancy guard, emits `activeIndexChange` then `onChange`, then
requests scroll-into-view. On the disabled or already-selected paths it
only calls `event.preventDefault()`. -/
def openOp (s : TabState) (i : Nat) : TabState × List Ev :=
  match s.tabs[i]? with
  | none => (s, [])
  | some tab =>
    if tab.disabled then (s, [])
    else if tab.selected then (s, [])
    else
      let tabs2 := modifyAt (fun p => p.setSelected true) i (deselectCurrent s.tabs)
      let idx := findTabIndex tabs2 i
      ({ s with
          tabs := tabs2
          tabChanged := true
          preventActiveIndexPropagation := true },
        [Ev.activeIndexChange idx, Ev.change idx, Ev.scrollTo idx])

/-- The `closeTab` method (tabview.ts lines 762-779) on the panel at
position `i`: no-op when disabled; when the panel is selected it is
deselected and the loop selects the first candidate (see `reopenFirst`),
with the dirty flag set; in every non-disabled case `tab.closed = true`
runs last. -/
def closeTab (s : TabState) (i : Nat) : TabState :=
  match s.tabs[i]? with
  | none => s
  | some tab =>
    if tab.disabled then s
    else
      let tabs1 :=
        if tab.selected then
          reopenFirst tab.disabled (modifyAt (fun p => p.setSelected false) i s.tabs)
        else s.tabs
      { s with
          tabs := modifyAt Panel.setClosed i tabs1
          tabChanged := if tab.selected then true else s.tabChanged }

/-- The `close` method (tabview.ts lines 743-760): in controlled mode
(`controlClose`) it only emits `onClose` (the continuation is not
invoked); otherwise it runs `closeTab` and then emits `onClose` with
`findTabIndex` of the updated list. -/
def closeOp (s : TabState) (i : Nat) (controlClose : Bool) : TabState × List Ev :=
  if controlClose then
    (s, [Ev.closeEvent (findTabIndex s.tabs i)])
  else
    let s1 := closeTab s i
    (s1, [Ev.closeEvent (findTabIndex s1.tabs i)])

/-- The `activeIndex` setter (tabview.ts lines 405-419): stores the value,
consumes the re-entrancy guard if pending, and otherwise — when `tabs` is
non-empty and `tabs.length > val` — runs
`findSelectedTab().selected = false; tabs[val].selected = true`.
`none` models the two `TypeError` paths: `findSelectedTab()` returning
`null`, and `tabs[val]` being `undefined` for negative `val` (the guard
has no lower bound). The `updateScrollBar` call is DOM-only. -/
def setActiveIndex (s : TabState) (v : Int) : Option TabState :=
  let s0 : TabState := { s with _activeIndex := some v }
  if s0.preventActiveIndexPropagation then
    some { s0 with preventActiveIndexPropagation := false }
  else if 0 < s0.tabs.length ∧ v < (s0.tabs.length : Int) then
    match findSelIdx s0.tabs with
    | none => none
    | some j =>
      if 0 ≤ v then
        let t1 := modifyAt (fun p => p.setSelected false) j s0.tabs
        some { s0 with
                tabs := modifyAt (fun p => p.setSelected true) v.toNat t1
                tabChanged := true }
      else none
  else some s0

/-- The `initTabs` method (tabview.ts lines 598-609). Its first line,
`this.tabs = this.tabPanels.toArray()`, re-syncs `tabs` with the child
panels; in the model `tabs` already is that list, so the re-sync is the
identity. Then, when no panel is selected and `tabs` is non-empty, it
selects `tabs[activeIndex]` if
`activeIndex != null && tabs.length > activeIndex`, else `tabs[0]`, and
set the dirty flag. `none` models the `TypeError` on
`tabs[activeIndex].selected = true` for a negative `activeIndex`
(`tabs[negative]` is `undefined`; the guard has no lower bound). -/
def initTabs (s : TabState) : Option TabState :=
  match findSelIdx s.tabs with
  | some _ => some s
  | none =>
    if s.tabs.length = 0 then some s
    else
      match s._activeIndex with
      | some v =>
        if v < (s.tabs.length : Int) then
          if 0 ≤ v then
            some { s with
                    tabs := modifyAt (fun p => p.setSelected true) v.toNat s.tabs
                    tabChanged := true }
          else none
        else
          some { s with
                  tabs := modifyAt (fun p => p.setSelected true) 0 s.tabs
                  tabChanged := true }
      | none =>
        some { s with
                tabs := modifyAt (fun p => p.setSelected true) 0 s.tabs
                tabChanged := true }

/-- A freshly constructed `TabPanel` with the given `disabled` input:
`_selected` undefined, `closed = false`, `loaded = false`. -/
def mkPanel (d : Bool) : Panel :=
  { selected := false, disabled := d, closed := false, loaded := false }

/-- Container state at construction, before `ngAfterContentInit`: panels
fresh (see `mkPanel`), `_activeIndex` as bound by the application (or
undefined), guard and dirty flag falsy. -/
def initialState (ds : List Bool) (ai : Option Int) : TabState :=
  { tabs := ds.map mkPanel
    _activeIndex := ai
    preventActiveIndexPropagation := false
    tabChanged := false }

/-- The container operations the two-way-sync state machine is driven by:
`open` and `closeTab` on the panel at a position, the `activeIndex`
setter, and `initTabs`. -/
inductive Op where
  | openT : Nat → Op
  | closeTabT : Nat → Op
  | setActive : Int → Op
  | init : Op
deriving DecidableEq, Repr

/-- One completed operation as a state transition; `none` when the
operation throws. `openT`/`closeTabT` are only invoked with panels of
`tabs` (the template passes `tab` from the `@for` loop). -/
def stepOp (o : Op) (s : TabState) : Option TabState :=
  match o with
  | .openT i => if i < s.tabs.length then some (openOp s i).1 else none
  | .closeTabT i => if i < s.tabs.length then some (closeTab s i) else none
  | .setActive v => setActiveIndex s v
  | .init => initTabs s

/-- States reachable from a freshly constructed container by completed
operations (initialization runs `initTabs`, which is `Op.init`). -/
inductive Reachable : TabState → Prop where
  | base (ds : List Bool) (ai : Option Int) : Reachable (initialState ds ai)
  | step (o : Op) (s s' : TabState) :
      Reachable s → stepOp o s = some s' → Reachable s'

/-- Number of selected panels in a list. -/
def selCount : List Panel → Nat
  | [] => 0
  | p :: ps => (if p.selected then 1 else 0) + selCount ps

/-- Number of non-closed selected panels in a list. -/
def nonClosedSelCount : List Panel → Nat
  | [] => 0
  | p :: ps => (if !p.closed && p.selected then 1 else 0) + nonClosedSelCount ps

/-- The `navBackward` handler (tabview.ts lines 861-866) over exact
numbers: `width` is the content width minus the visible nav-button widths,
and the new `scrollLeft` is `pos <= 0 ? 0 : pos` for
`pos = scrollLeft - width`. -/
def navBackward (contentWidth buttonWidths scrollLeft : ℚ) : ℚ :=
  let width := contentWidth - buttonWidths
  let pos := scrollLeft - width
  if pos ≤ 0 then 0 else pos

/-- The `navForward` handler (tabview.ts lines 868-875) over exact
numbers: `pos = scrollLeft + width`, `lastPos = scrollWidth - width`, and
the new `scrollLeft` is `pos >= lastPos ? lastPos : pos`. -/
def navForward (contentWidth buttonWidths scrollWidth scrollLeft : ℚ) : ℚ :=
  let width := contentWidth - buttonWidths
  let pos := scrollLeft + width
  let lastPos := scrollWidth - width
  if pos ≥ lastPos then lastPos else pos

/- Concrete container states used as witnesses and counterexamples.
Panel literals list the fields in order
`selected, disabled, closed, loaded`. -/

/-- Three panels, the first disabled, the second selected: the state after
initializing `initialState [true, false, false] (some 1)`. -/
def c1state : TabState :=
  ⟨[⟨false, true, false, false⟩, ⟨true, false, false, true⟩,
    ⟨false, false, false, false⟩], some 1, false, true⟩

/-- Two panels, the second selected: the state after initializing
`initialState [false, false] (some 1)`. -/
def c3mid : TabState :=
  ⟨[⟨false, false, false, false⟩, ⟨true, false, false, true⟩], some 1, false, true⟩

/-- The state reached from `c3mid` by `closeTab` on panel 1: panel 0
selected, panel 1 closed and unselected. -/
def c3sA : TabState :=
  ⟨[⟨true, false, false, true⟩, ⟨false, false, true, true⟩], some 1, false, true⟩

/-- The state produced by the `activeIndex` setter applied to `c3sA` with
value 1: the closed panel 1 is selected again. -/
def c3sB : TabState :=
  ⟨[⟨false, false, false, true⟩, ⟨true, false, true, true⟩], some 1, false, true⟩

/-- Witness state for C3: panel 0 closed, panel 1 selected. -/
def c3wA : TabState :=
  ⟨[⟨false, false, true, false⟩, ⟨true, false, false, true⟩], none, false, false⟩

/-- The state reached from `c3wA` by `closeTab` on panel 1 (the loop
reselects panel 1 itself, the only non-closed panel, before closing it). -/
def c3wB : TabState :=
  ⟨[⟨false, false, true, false⟩, ⟨true, false, true, true⟩], none, false, true⟩

/-- Two panels, the first selected, the second disabled. -/
def c4s : TabState :=
  ⟨[⟨true, false, false, true⟩, ⟨false, true, false, false⟩], some 0, false, false⟩

/-- A single non-disabled panel with no selection anywhere. -/
def c5state : TabState :=
  ⟨[⟨false, false, false, false⟩], none, false, false⟩

/-- Two panels, the first selected, the second free (setter target). -/
def c5w : TabState :=
  ⟨[⟨true, false, false, true⟩, ⟨false, false, false, false⟩], some 0, false, false⟩

/-- Two unselected panels with `_activeIndex` bound to 5 (out of range
above). -/
def c6state : TabState :=
  ⟨[⟨false, false, false, false⟩, ⟨false, false, false, false⟩], some 5, false, false⟩

/-- Two panels, the first selected, the second disabled (close target). -/
def c7state : TabState :=
  ⟨[⟨true, false, false, true⟩, ⟨false, true, false, false⟩], some 0, false, false⟩

/-- Two panels, the first selected, the second free to open. -/
def c8state : TabState :=
  ⟨[⟨true, false, false, true⟩, ⟨false, false, false, false⟩], some 0, false, false⟩

/-- Two panels with nothing selected and the guard clear. -/
def c10state : TabState :=
  ⟨[⟨false, false, false, false⟩, ⟨false, false, false, false⟩], none, false, false⟩

/- Basic lemmas about `modifyAt` and the selection counts. -/

theorem modifyAt_length (f : Panel → Panel) (i : Nat) (ts : List Panel) :
    (modifyAt f i ts).length = ts.length := by
  induction ts generalizing i with
  | nil => cases i <;> rfl
  | cons p ps ih =>
    cases i with
    | zero => rfl
    | succ n => simp [modifyAt, ih]

theorem modifyAt_get? (f : Panel → Panel) (i k : Nat) (ts : List Panel) :
    (modifyAt f i ts)[k]? = if i = k then (ts[k]?).map f else ts[k]? := by
  induction ts generalizing i k with
  | nil => cases i <;> simp [modifyAt]
  | cons p ps ih =>
    cases i with
    | zero =>
      cases k with
      | zero => simp [modifyAt]
      | succ m => simp [modifyAt]
    | succ n =>
      cases k with
      | zero => simp [modifyAt]
      | succ m =>
        simp only [modifyAt, List.getElem?_cons_succ, ih]
        by_cases hnm : n = m <;> simp [hnm]

theorem findSelIdx_none_selCount (ts : List Panel) (h : findSelIdx ts = none) :
    selCount ts = 0 := by
  induction ts with
  | nil => rfl
  | cons p ps ih =>
    cases hp : p.selected with
    | true => simp [findSelIdx, hp] at h
    | false =>
      rw [findSelIdx] at h
      simp only [hp, Bool.false_eq_true, if_false, Option.map_eq_none'] at h
      simp [selCount, hp, ih h]

theorem findSelIdx_some_selected (ts : List Panel) (j : Nat)
    (h : findSelIdx ts = some j) : ∃ p, ts[j]? = some p ∧ p.selected = true := by
  induction ts generalizing j with
  | nil => simp [findSelIdx] at h
  | cons p ps ih =>
    cases hp : p.selected with
    | true =>
      simp [findSelIdx, hp] at h
      exact ⟨p, by simp [← h], hp⟩
    | false =>
      rw [findSelIdx] at h
      simp only [hp, Bool.false_eq_true, if_false, Option.map_eq_some'] at h
      obtain ⟨j0, hj0, hj⟩ := h
      obtain ⟨q, hq, hqs⟩ := ih j0 hj0
      exact ⟨q, by simpa [← hj] using hq, hqs⟩

theorem selCount_deselect (ts : List Panel) (i : Nat) (p : Panel)
    (h : ts[i]? = some p) (hs : p.selected = true) :
    selCount (modifyAt (fun q => q.setSelected false) i ts) + 1 = selCount ts := by
  induction ts generalizing i with
  | nil => simp at h
  | cons r rs ih =>
    cases i with
    | zero =>
      simp only [List.getElem?_cons_zero, Option.some.injEq] at h
      subst h
      simp only [modifyAt, selCount, Panel.setSelected, hs]
      simp
      omega
    | succ n =>
      simp only [List.getElem?_cons_succ] at h
      have := ih n h
      simp only [modifyAt, selCount]
      omega

theorem selCount_select_le (ts : List Panel) (i : Nat) :
    selCount (modifyAt (fun q => q.setSelected true) i ts) ≤ selCount ts + 1 := by
  induction ts generalizing i with
  | nil => cases i <;> simp [modifyAt, selCount]
  | cons r rs ih =>
    cases i with
    | zero =>
      simp only [modifyAt, selCount, Panel.setSelected]
      have : selCount rs ≤ selCount rs := Nat.le_refl _
      by_cases hr : r.selected = true <;> simp [hr] <;> omega
    | succ n =>
      have := ih n
      simp only [modifyAt, selCount]
      omega

theorem selCount_modify_of_selected_eq (f : Panel → Panel)
    (hf : ∀ p, (f p).selected = p.selected) (ts : List Panel) (i : Nat) :
    selCount (modifyAt f i ts) = selCount ts := by
  induction ts generalizing i with
  | nil => cases i <;> rfl
  | cons r rs ih =>
    cases i with
    | zero => simp [modifyAt, selCount, hf]
    | succ n => simp [modifyAt, selCount, ih]

theorem one_le_selCount (ts : List Panel) (m : Nat) (q : Panel)
    (h : ts[m]? = some q) (hq : q.selected = true) : 1 ≤ selCount ts := by
  induction ts generalizing m with
  | nil => simp at h
  | cons r rs ih =>
    cases m with
    | zero =>
      simp only [List.getElem?_cons_zero, Option.some.injEq] at h
      subst h
      simp [selCount, hq]
    | succ n =>
      simp only [List.getElem?_cons_succ] at h
      have := ih n h
      simp only [selCount]
      omega

theorem two_le_selCount (ts : List Panel) (j m : Nat) (p q : Panel)
    (hjm : j ≠ m) (hj : ts[j]? = some p) (hp : p.selected = true)
    (hm : ts[m]? = some q) (hq : q.selected = true) : 2 ≤ selCount ts := by
  induction ts generalizing j m with
  | nil => simp at hj
  | cons r rs ih =>
    cases j with
    | zero =>
      cases m with
      | zero => exact absurd rfl hjm
      | succ m1 =>
        simp only [List.getElem?_cons_zero, Option.some.injEq] at hj
        simp only [List.getElem?_cons_succ] at hm
        subst hj
        have h1 := one_le_selCount rs m1 q hm hq
        simp only [selCount, hp, if_true]
        omega
    | succ j1 =>
      cases m with
      | zero =>
        simp only [List.getElem?_cons_succ] at hj
        simp only [List.getElem?_cons_zero, Option.some.injEq] at hm
        subst hm
        have h1 := one_le_selCount rs j1 p hj hp
        simp only [selCount, hq, if_true]
        omega
      | succ m1 =>
        simp only [List.getElem?_cons_succ] at hj hm
        have := ih j1 m1 (by omega) hj hm
        simp only [selCount]
        omega

theorem selected_unique (ts : List Panel) (hc : selCount ts ≤ 1) (j : Nat) (p : Panel)
    (hj : ts[j]? = some p) (hp : p.selected = true) (m : Nat) (q : Panel)
    (hm : m ≠ j) (hq : ts[m]? = some q) : q.selected = false := by
  cases hqs : q.selected with
  | false => rfl
  | true =>
    have := two_le_selCount ts j m p q (fun h => hm h.symm) hj hp hq hqs
    omega

theorem nonClosedSelCount_le_selCount (ts : List Panel) :
    nonClosedSelCount ts ≤ selCount ts := by
  induction ts with
  | nil => exact Nat.le_refl 0
  | cons r rs ih =>
    simp only [nonClosedSelCount, selCount]
    have : (if !r.closed && r.selected then 1 else 0) ≤ if r.selected then 1 else 0 := by
      cases hr : r.selected <;> cases hc : r.closed <;> simp
    omega

theorem selCount_map_mkPanel (ds : List Bool) : selCount (ds.map mkPanel) = 0 := by
  induction ds with
  | nil => rfl
  | cons d ds ih => simp [selCount, mkPanel, ih]

theorem lt_length_of_get? (ts : List Panel) (i : Nat) (p : Panel)
    (h : ts[i]? = some p) : i < ts.length := by
  by_contra hcon
  rw [List.getElem?_eq_none (by omega)] at h
  exact Option.noConfusion h

theorem deselectCurrent_length (ts : List Panel) :
    (deselectCurrent ts).length = ts.length := by
  unfold deselectCurrent
  cases hf : findSelIdx ts with
  | none => rfl
  | some j => exact modifyAt_length _ j ts

theorem reopenFirst_length (b : Bool) (ts : List Panel) :
    (reopenFirst b ts).length = ts.length := by
  unfold reopenFirst
  cases hf : findReopenIdx b ts with
  | none => rfl
  | some j => exact modifyAt_length _ j ts

/- Branch equations for the operations. -/

theorem openOp_eq_noop (s : TabState) (i : Nat) (tab : Panel)
    (hg : s.tabs[i]? = some tab) (h : tab.disabled = true ∨ tab.selected = true) :
    openOp s i = (s, []) := by
  rcases h with h | h
  · simp [openOp, hg, h]
  · cases hd : tab.disabled <;> simp [openOp, hg, h, hd]

theorem openOp_eq_select (s : TabState) (i : Nat) (tab : Panel)
    (hg : s.tabs[i]? = some tab) (hd : tab.disabled = false)
    (hs : tab.selected = false) :
    openOp s i =
      ({ s with
          tabs := modifyAt (fun p => p.setSelected true) i (deselectCurrent s.tabs)
          tabChanged := true
          preventActiveIndexPropagation := true },
        [Ev.activeIndexChange (i : Int), Ev.change (i : Int), Ev.scrollTo (i : Int)]) := by
  have hi : i < s.tabs.length := lt_length_of_get? s.tabs i tab hg
  have hidx : findTabIndex
      (modifyAt (fun p => p.setSelected true) i (deselectCurrent s.tabs)) i = (i : Int) := by
    rw [findTabIndex, modifyAt_length, deselectCurrent_length]
    simp [hi]
  simp [openOp, hg, hd, hs, hidx]

theorem closeTab_eq_disabled (s : TabState) (i : Nat) (tab : Panel)
    (hg : s.tabs[i]? = some tab) (hd : tab.disabled = true) :
    closeTab s i = s := by
  simp [closeTab, hg, hd]

theorem closeTab_eq_not_selected (s : TabState) (i : Nat) (tab : Panel)
    (hg : s.tabs[i]? = some tab) (hd : tab.disabled = false)
    (hs : tab.selected = false) :
    closeTab s i = { s with tabs := modifyAt Panel.setClosed i s.tabs } := by
  simp [closeTab, hg, hd, hs]

theorem closeTab_eq_selected (s : TabState) (i : Nat) (tab : Panel)
    (hg : s.tabs[i]? = some tab) (hd : tab.disabled = false)
    (hs : tab.selected = true) :
    closeTab s i =
      { s with
          tabs := modifyAt Panel.setClosed i
            (reopenFirst tab.disabled
              (modifyAt (fun p => p.setSelected false) i s.tabs))
          tabChanged := true } := by
  simp [closeTab, hg, hd, hs]

theorem setActiveIndex_eq_guarded (s : TabState) (v : Int)
    (hp : s.preventActiveIndexPropagation = true) :
    setActiveIndex s v =
      some { s with _activeIndex := some v, preventActiveIndexPropagation := false } := by
  simp [setActiveIndex, hp]

theorem setActiveIndex_eq_out_of_range (s : TabState) (v : Int)
    (hp : s.preventActiveIndexPropagation = false)
    (h : ¬(0 < s.tabs.length ∧ v < (s.tabs.length : Int))) :
    setActiveIndex s v = some { s with _activeIndex := some v } := by
  simp [setActiveIndex, hp, h]

theorem setActiveIndex_eq_crash_no_selection (s : TabState) (v : Int)
    (hp : s.preventActiveIndexPropagation = false)
    (hlen : 0 < s.tabs.length) (hv : v < (s.tabs.length : Int))
    (hf : findSelIdx s.tabs = none) :
    setActiveIndex s v = none := by
  simp [setActiveIndex, hp, hlen, hv, hf]

theorem setActiveIndex_eq_crash_negative (s : TabState) (v : Int)
    (hp : s.preventActiveIndexPropagation = false)
    (hlen : 0 < s.tabs.length) (hv : v < (s.tabs.length : Int))
    (j : Nat) (hf : findSelIdx s.tabs = some j) (hneg : v < 0) :
    setActiveIndex s v = none := by
  have : ¬(0 ≤ v) := by omega
  simp [setActiveIndex, hp, hlen, hv, hf, this]

theorem setActiveIndex_eq_select (s : TabState) (v : Int)
    (hp : s.preventActiveIndexPropagation = false)
    (hv : v < (s.tabs.length : Int)) (h0 : 0 ≤ v)
    (j : Nat) (hf : findSelIdx s.tabs = some j) :
    setActiveIndex s v =
      some { s with
              _activeIndex := some v
              tabs := modifyAt (fun p => p.setSelected true) v.toNat
                (modifyAt (fun p => p.setSelected false) j s.tabs)
              tabChanged := true } := by
  have hlen : 0 < s.tabs.length := by
    by_contra hcon
    have h2 : s.tabs.length = 0 := by omega
    rw [h2] at hv
    omega
  simp [setActiveIndex, hp, hlen, hv, h0, hf]

theorem initTabs_eq_already_selected (s : TabState) (j : Nat)
    (hf : findSelIdx s.tabs = some j) : initTabs s = some s := by
  simp [initTabs, hf]

theorem initTabs_eq_empty (s : TabState) (hf : findSelIdx s.tabs = none)
    (hlen : s.tabs.length = 0) : initTabs s = some s := by
  simp [initTabs, hf, hlen]

theorem initTabs_eq_at_index (s : TabState) (v : Int)
    (hf : findSelIdx s.tabs = none) (hlen : s.tabs.length ≠ 0)
    (ha : s._activeIndex = some v) (hv : v < (s.tabs.length : Int)) (h0 : 0 ≤ v) :
    initTabs s =
      some { s with
              tabs := modifyAt (fun p => p.setSelected true) v.toNat s.tabs
              tabChanged := true } := by
  simp [initTabs, hf, hlen, ha, hv, h0]

theorem initTabs_eq_crash_negative (s : TabState) (v : Int)
    (hf : findSelIdx s.tabs = none) (hlen : s.tabs.length ≠ 0)
    (ha : s._activeIndex = some v) (hneg : v < 0) :
    initTabs s = none := by
  have hv : v < (s.tabs.length : Int) := by
    have : (0 : Int) ≤ (s.tabs.length : Int) := Int.natCast_nonneg _
    omega
  have : ¬(0 ≤ v) := by omega
  simp [initTabs, hf, hlen, ha, hv, this]

theorem initTabs_eq_fallback_over (s : TabState) (v : Int)
    (hf : findSelIdx s.tabs = none) (hlen : s.tabs.length ≠ 0)
    (ha : s._activeIndex = some v) (hv : ¬(v < (s.tabs.length : Int))) :
    initTabs s =
      some { s with
              tabs := modifyAt (fun p => p.setSelected true) 0 s.tabs
              tabChanged := true } := by
  simp [initTabs, hf, hlen, ha, hv]

theorem initTabs_eq_fallback_undefined (s : TabState)
    (hf : findSelIdx s.tabs = none) (hlen : s.tabs.length ≠ 0)
    (ha : s._activeIndex = none) :
    initTabs s =
      some { s with
              tabs := modifyAt (fun p => p.setSelected true) 0 s.tabs
              tabChanged := true } := by
  simp [initTabs, hf, hlen, ha]

/- Preservation of the selection-count invariant by every operation. -/

theorem selCount_deselectCurrent (ts : List Panel) (h : selCount ts ≤ 1) :
    selCount (deselectCurrent ts) = 0 := by
  unfold deselectCurrent
  cases hf : findSelIdx ts with
  | none => exact findSelIdx_none_selCount ts hf
  | some j =>
    show selCount (modifyAt (fun p => p.setSelected false) j ts) = 0
    obtain ⟨p, hp, hps⟩ := findSelIdx_some_selected ts j hf
    have h1 := selCount_deselect ts j p hp hps
    omega

theorem selCount_reopenFirst (b : Bool) (ts : List Panel) :
    selCount (reopenFirst b ts) ≤ selCount ts + 1 := by
  unfold reopenFirst
  cases hf : findReopenIdx b ts with
  | none =>
    show selCount ts ≤ selCount ts + 1
    omega
  | some j => exact selCount_select_le ts j

theorem openOp_selCount (s : TabState) (i : Nat) (hinv : selCount s.tabs ≤ 1) :
    selCount (openOp s i).1.tabs ≤ 1 := by
  cases hg : s.tabs[i]? with
  | none => simpa [openOp, hg] using hinv
  | some tab =>
    cases hd : tab.disabled with
    | true => simpa [openOp_eq_noop s i tab hg (Or.inl hd)] using hinv
    | false =>
      cases hs : tab.selected with
      | true => simpa [openOp_eq_noop s i tab hg (Or.inr hs)] using hinv
      | false =>
        rw [openOp_eq_select s i tab hg hd hs]
        have h0 := selCount_deselectCurrent s.tabs hinv
        have h1 := selCount_select_le (deselectCurrent s.tabs) i
        simp only []
        omega

theorem closeTab_selCount (s : TabState) (i : Nat) (hinv : selCount s.tabs ≤ 1) :
    selCount (closeTab s i).tabs ≤ 1 := by
  have hclosed : ∀ p : Panel, (Panel.setClosed p).selected = p.selected := fun _ => rfl
  cases hg : s.tabs[i]? with
  | none => simpa [closeTab, hg] using hinv
  | some tab =>
    cases hd : tab.disabled with
    | true => simpa [closeTab_eq_disabled s i tab hg hd] using hinv
    | false =>
      cases hs : tab.selected with
      | false =>
        rw [closeTab_eq_not_selected s i tab hg hd hs]
        simpa [selCount_modify_of_selected_eq Panel.setClosed hclosed] using hinv
      | true =>
        rw [closeTab_eq_selected s i tab hg hd hs]
        simp only []
        rw [selCount_modify_of_selected_eq Panel.setClosed hclosed]
        have h1 := selCount_deselect s.tabs i tab hg hs
        have h2 := selCount_reopenFirst tab.disabled
          (modifyAt (fun p => p.setSelected false) i s.tabs)
        omega

theorem setActiveIndex_selCount (s : TabState) (v : Int) (s' : TabState)
    (h : setActiveIndex s v = some s') (hinv : selCount s.tabs ≤ 1) :
    selCount s'.tabs ≤ 1 := by
  cases hp : s.preventActiveIndexPropagation with
  | true =>
    rw [setActiveIndex_eq_guarded s v hp] at h
    cases h
    exact hinv
  | false =>
    by_cases hc : 0 < s.tabs.length ∧ v < (s.tabs.length : Int)
    · cases hf : findSelIdx s.tabs with
      | none =>
        rw [setActiveIndex_eq_crash_no_selection s v hp hc.1 hc.2 hf] at h
        exact Option.noConfusion h
      | some j =>
        by_cases h0 : 0 ≤ v
        · rw [setActiveIndex_eq_select s v hp hc.2 h0 j hf] at h
          cases h
          obtain ⟨p, hpj, hps⟩ := findSelIdx_some_selected s.tabs j hf
          have h1 := selCount_deselect s.tabs j p hpj hps
          have h2 := selCount_select_le
            (modifyAt (fun q => q.setSelected false) j s.tabs) v.toNat
          simp only []
          omega
        · rw [setActiveIndex_eq_crash_negative s v hp hc.1 hc.2 j hf (by omega)] at h
          exact Option.noConfusion h
    · rw [setActiveIndex_eq_out_of_range s v hp hc] at h
      cases h
      exact hinv

theorem initTabs_selCount (s s' : TabState) (h : initTabs s = some s')
    (hinv : selCount s.tabs ≤ 1) : selCount s'.tabs ≤ 1 := by
  cases hf : findSelIdx s.tabs with
  | some j =>
    rw [initTabs_eq_already_selected s j hf] at h
    cases h
    exact hinv
  | none =>
    by_cases hlen : s.tabs.length = 0
    · rw [initTabs_eq_empty s hf hlen] at h
      cases h
      exact hinv
    · have h0 := findSelIdx_none_selCount s.tabs hf
      cases ha : s._activeIndex with
      | none =>
        rw [initTabs_eq_fallback_undefined s hf hlen ha] at h
        cases h
        have := selCount_select_le s.tabs 0
        simp only []
        omega
      | some v =>
        by_cases hv : v < (s.tabs.length : Int)
        · by_cases hvn : 0 ≤ v
          · rw [initTabs_eq_at_index s v hf hlen ha hv hvn] at h
            cases h
            have := selCount_select_le s.tabs v.toNat
            simp only []
            omega
          · rw [initTabs_eq_crash_negative s v hf hlen ha (by omega)] at h
            exact Option.noConfusion h
        · rw [initTabs_eq_fallback_over s v hf hlen ha hv] at h
          cases h
          have := selCount_select_le s.tabs 0
          simp only []
          omega

theorem stepOp_selCount (o : Op) (s s' : TabState) (h : stepOp o s = some s')
    (hinv : selCount s.tabs ≤ 1) : selCount s'.tabs ≤ 1 := by
  cases o with
  | openT i =>
    rw [stepOp] at h
    by_cases hi : i < s.tabs.length
    · rw [if_pos hi] at h
      cases h
      exact openOp_selCount s i hinv
    · rw [if_neg hi] at h
      exact Option.noConfusion h
  | closeTabT i =>
    rw [stepOp] at h
    by_cases hi : i < s.tabs.length
    · rw [if_pos hi] at h
      cases h
      exact closeTab_selCount s i hinv
    · rw [if_neg hi] at h
      exact Option.noConfusion h
  | setActive v => exact setActiveIndex_selCount s v s' h hinv
  | init => exact initTabs_selCount s s' h hinv

/-- In every reachable container state, at most one panel (closed or not)
has `selected = true`. -/
theorem reachable_selCount (s : TabState) (h : Reachable s) : selCount s.tabs ≤ 1 := by
  induction h with
  | base ds ai => simp [initialState, selCount_map_mkPanel]
  | step o s1 s2 _ hstep ih => exact stepOp_selCount o s1 s2 hstep ih

/-- C2: for every state reachable from initialization by any sequence of
the container operations `open`, `closeTab`, the `activeIndex` setter and
`initTabs`, at most one non-closed panel in `tabs` has `selected = true`. -/
theorem C2_at_most_one_selected (s : TabState) (h : Reachable s) :
    nonClosedSelCount s.tabs ≤ 1 :=
  Nat.le_trans (nonClosedSelCount_le_selCount s.tabs) (reachable_selCount s h)

/-- Witness for C2 at a concrete reachable state. -/
theorem C2_witness : nonClosedSelCount (initialState [false, true, false] none).tabs ≤ 1 :=
  C2_at_most_one_selected (initialState [false, true, false] none)
    (Reachable.base [false, true, false] none)

/- Monotonicity of the `closed` flag. -/

theorem modifyAt_closed_mono (f : Panel → Panel)
    (hf : ∀ p, p.closed = true → (f p).closed = true) (i k : Nat) (ts : List Panel)
    (h : (ts[k]?).map Panel.closed = some true) :
    ((modifyAt f i ts)[k]?).map Panel.closed = some true := by
  rw [modifyAt_get?]
  by_cases hik : i = k
  · rw [if_pos hik]
    cases hg : ts[k]? with
    | none => rw [hg] at h; exact Option.noConfusion h
    | some p =>
      rw [hg] at h
      simp only [Option.map_some', Option.some.injEq] at h ⊢
      exact hf p h
  · rw [if_neg hik]
    exact h

theorem deselectCurrent_closed (ts : List Panel) (k : Nat)
    (h : (ts[k]?).map Panel.closed = some true) :
    ((deselectCurrent ts)[k]?).map Panel.closed = some true := by
  unfold deselectCurrent
  cases hf : findSelIdx ts with
  | none => exact h
  | some j => exact modifyAt_closed_mono (fun p => p.setSelected false) (fun p hp => hp) j k ts h

theorem reopenFirst_closed (b : Bool) (ts : List Panel) (k : Nat)
    (h : (ts[k]?).map Panel.closed = some true) :
    ((reopenFirst b ts)[k]?).map Panel.closed = some true := by
  unfold reopenFirst
  cases hf : findReopenIdx b ts with
  | none => exact h
  | some j => exact modifyAt_closed_mono (fun p => p.setSelected true) (fun p hp => hp) j k ts h

/-- C3 (amended): once a panel's `closed` flag is true, no completed
container operation (`open`, `closeTab`, the `activeIndex` setter,
`initTabs`) ever resets it to false. The second half of the original
claim is refuted by `C3_counterexample`: the `activeIndex` setter (which
never tests `closed`) can make a closed panel selected again. -/
theorem C3_closed_monotone (o : Op) (s s' : TabState) (h : stepOp o s = some s')
    (i : Nat) (hc : (s.tabs[i]?).map Panel.closed = some true) :
    (s'.tabs[i]?).map Panel.closed = some true := by
  cases o with
  | openT k =>
    rw [stepOp] at h
    by_cases hk : k < s.tabs.length
    · rw [if_pos hk] at h
      cases h
      cases hg : s.tabs[k]? with
      | none => simpa [openOp, hg] using hc
      | some tab =>
        cases hd : tab.disabled with
        | true =>
          rw [openOp_eq_noop s k tab hg (Or.inl hd)]
          exact hc
        | false =>
          cases hs : tab.selected with
          | true =>
            rw [openOp_eq_noop s k tab hg (Or.inr hs)]
            exact hc
          | false =>
            rw [openOp_eq_select s k tab hg hd hs]
            exact modifyAt_closed_mono (fun p => p.setSelected true) (fun p hp => hp) k i _
              (deselectCurrent_closed s.tabs i hc)
    · rw [if_neg hk] at h
      exact Option.noConfusion h
  | closeTabT k =>
    rw [stepOp] at h
    by_cases hk : k < s.tabs.length
    · rw [if_pos hk] at h
      cases h
      cases hg : s.tabs[k]? with
      | none => simpa [closeTab, hg] using hc
      | some tab =>
        cases hd : tab.disabled with
        | true =>
          rw [closeTab_eq_disabled s k tab hg hd]
          exact hc
        | false =>
          cases hs : tab.selected with
          | false =>
            rw [closeTab_eq_not_selected s k tab hg hd hs]
            exact modifyAt_closed_mono Panel.setClosed (fun p _ => rfl) k i _ hc
          | true =>
            rw [closeTab_eq_selected s k tab hg hd hs]
            exact modifyAt_closed_mono Panel.setClosed (fun p _ => rfl) k i _
              (reopenFirst_closed tab.disabled _ i
                (modifyAt_closed_mono (fun p => p.setSelected false) (fun p hp => hp) k i _ hc))
    · rw [if_neg hk] at h
      exact Option.noConfusion h
  | setActive v =>
    rw [stepOp] at h
    cases hp : s.preventActiveIndexPropagation with
    | true =>
      rw [setActiveIndex_eq_guarded s v hp] at h
      cases h
      exact hc
    | false =>
      by_cases hcnd : 0 < s.tabs.length ∧ v < (s.tabs.length : Int)
      · cases hf : findSelIdx s.tabs with
        | none =>
          rw [setActiveIndex_eq_crash_no_selection s v hp hcnd.1 hcnd.2 hf] at h
          exact Option.noConfusion h
        | some j =>
          by_cases h0 : 0 ≤ v
          · rw [setActiveIndex_eq_select s v hp hcnd.2 h0 j hf] at h
            cases h
            exact modifyAt_closed_mono (fun p => p.setSelected true) (fun p hp2 => hp2) v.toNat i _
              (modifyAt_closed_mono (fun p => p.setSelected false) (fun p hp2 => hp2) j i _ hc)
          · rw [setActiveIndex_eq_crash_negative s v hp hcnd.1 hcnd.2 j hf (by omega)] at h
            exact Option.noConfusion h
      · rw [setActiveIndex_eq_out_of_range s v hp hcnd] at h
        cases h
        exact hc
  | init =>
    rw [stepOp] at h
    cases hf : findSelIdx s.tabs with
    | some j =>
      rw [initTabs_eq_already_selected s j hf] at h
      cases h
      exact hc
    | none =>
      by_cases hlen : s.tabs.length = 0
      · rw [initTabs_eq_empty s hf hlen] at h
        cases h
        exact hc
      · cases ha : s._activeIndex with
        | none =>
          rw [initTabs_eq_fallback_undefined s hf hlen ha] at h
          cases h
          exact modifyAt_closed_mono (fun p => p.setSelected true) (fun p hp2 => hp2) 0 i _ hc
        | some v =>
          by_cases hv : v < (s.tabs.length : Int)
          · by_cases h0 : 0 ≤ v
            · rw [initTabs_eq_at_index s v hf hlen ha hv h0] at h
              cases h
              exact modifyAt_closed_mono (fun p => p.setSelected true) (fun p hp2 => hp2) v.toNat i _ hc
            · rw [initTabs_eq_crash_negative s v hf hlen ha (by omega)] at h
              exact Option.noConfusion h
          · rw [initTabs_eq_fallback_over s v hf hlen ha hv] at h
            cases h
            exact modifyAt_closed_mono (fun p => p.setSelected true) (fun p hp2 => hp2) 0 i _ hc

/-- Witness for C3 (amended) at a concrete input: closing panel 1 of
`c3wA` leaves the already-closed panel 0 closed. -/
theorem C3_witness : (c3wB.tabs[0]?).map Panel.closed = some true :=
  C3_closed_monotone (Op.closeTabT 1) c3wA c3wB (by decide) 0 (by decide)

/-- C3 counterexample: in the reachable state `c3sA`, panel 1 is closed
and unselected, yet the `activeIndex` setter with value 1 completes and
leaves panel 1 selected (and still closed) — a closed panel is selected
again, refuting "that panel is never again selectable". -/
theorem C3_counterexample :
    Reachable c3sA ∧
    (c3sA.tabs[1]?).map Panel.closed = some true ∧
    (c3sA.tabs[1]?).map Panel.selected = some false ∧
    stepOp (Op.setActive 1) c3sA = some c3sB ∧
    (c3sB.tabs[1]?).map Panel.selected = some true ∧
    (c3sB.tabs[1]?).map Panel.closed = some true := by
  refine ⟨?_, by decide, by decide, by decide, by decide, by decide⟩
  have h0 : Reachable (initialState [false, false] (some 1)) :=
    Reachable.base [false, false] (some 1)
  have h1 : Reachable c3mid :=
    Reachable.step Op.init (initialState [false, false] (some 1)) c3mid h0 (by decide)
  exact Reachable.step (Op.closeTabT 1) c3mid c3sA h1 (by decide)

/-- C4: calling `open` on an already-selected, non-disabled panel emits
nothing (no `onChange`, no `activeIndexChange`, no scroll request) and
leaves the whole container state — in particular every panel's
`selected` flag — unchanged. -/
theorem C4_open_idempotent (s : TabState) (i : Nat) (tab : Panel)
    (hget : s.tabs[i]? = some tab) (hsel : tab.selected = true)
    (hdis : tab.disabled = false) :
    openOp s i = (s, []) :=
  openOp_eq_noop s i tab hget (Or.inr hsel)

/-- Witness for C4 at a concrete input. -/
theorem C4_witness : openOp c4s 0 = (c4s, []) :=
  C4_open_idempotent c4s 0 ⟨true, false, false, true⟩ (by decide) (by decide) (by decide)

/-- C1 (evaluation of the defect): in the reachable state `c1state`
(panel 0 disabled, panel 1 selected, panel 2 free), `closeTab` on panel 1
selects panel 0 — which is disabled — and leaves panel 2 unselected,
because the loop condition `!tabPanel.closed && !tab.disabled` tests the
closing tab's `disabled` flag (vacuously false there) instead of the
candidate's. The claim (and spec §4.2) requires the first non-closed,
NON-DISABLED panel, i.e. panel 2. -/
theorem C1_code_eval :
    Reachable c1state ∧
    (c1state.tabs[0]?).map Panel.disabled = some true ∧
    ((closeTab c1state 1).tabs[0]?).map Panel.selected = some true ∧
    ((closeTab c1state 1).tabs[2]?).map Panel.selected = some false ∧
    ((closeTab c1state 1).tabs[1]?).map Panel.closed = some true ∧
    ((closeTab c1state 1).tabs[1]?).map Panel.selected = some false := by
  refine ⟨?_, by decide, by decide, by decide, by decide, by decide⟩
  exact Reachable.step Op.init (initialState [true, false, false] (some 1)) c1state
    (Reachable.base [true, false, false] (some 1)) (by decide)

/- Helper lemmas for the setter and `open` characterizations. -/

theorem exists_getElem? (ts : List Panel) (i : Nat) (h : i < ts.length) :
    ∃ p, ts[i]? = some p := by
  rw [List.getElem?_eq_getElem h]
  exact ⟨_, rfl⟩

theorem deselectCurrent_at (ts : List Panel) (j : Nat) (p : Panel)
    (hj : findSelIdx ts = some j) (hp : ts[j]? = some p) :
    (deselectCurrent ts)[j]? = some (p.setSelected false) := by
  unfold deselectCurrent
  rw [hj]
  show (modifyAt (fun q => q.setSelected false) j ts)[j]? = _
  rw [modifyAt_get?, if_pos rfl, hp]
  rfl

/-- C5 (amended): if additionally exactly one panel is currently selected
(which fails in reachable states where every panel has been closed — see
the counterexample), setting `activeIndex` to an in-range `v` with the
guard clear completes and leaves exactly the panel at position `v`
selected. -/
theorem C5_amended (s : TabState) (v : Int) (j : Nat) (pv : Panel)
    (hflag : s.preventActiveIndexPropagation = false)
    (h0 : 0 ≤ v) (hv : v < (s.tabs.length : Int))
    (hget : s.tabs[v.toNat]? = some pv) (hdis : pv.disabled = false)
    (hsel : findSelIdx s.tabs = some j) (hone : selCount s.tabs ≤ 1) :
    ∃ s', setActiveIndex s v = some s' ∧
      ∀ m q, s'.tabs[m]? = some q → (q.selected = true ↔ m = v.toNat) := by
  refine ⟨_, setActiveIndex_eq_select s v hflag hv h0 j hsel, ?_⟩
  intro m q hq
  obtain ⟨pj, hpj, hpjs⟩ := findSelIdx_some_selected s.tabs j hsel
  show q.selected = true ↔ m = v.toNat
  have hq2 : (modifyAt (fun p => p.setSelected true) v.toNat
      (modifyAt (fun p => p.setSelected false) j s.tabs))[m]? = some q := hq
  rw [modifyAt_get?] at hq2
  by_cases hm : v.toNat = m
  · subst hm
    rw [if_pos rfl] at hq2
    obtain ⟨p0, _, hpq⟩ := Option.map_eq_some'.mp hq2
    constructor
    · intro _
      rfl
    · intro _
      rw [← hpq]
      rfl
  · rw [if_neg hm, modifyAt_get?] at hq2
    have hqf : q.selected = false := by
      by_cases hj2 : j = m
      · rw [if_pos hj2] at hq2
        obtain ⟨p0, _, hpq⟩ := Option.map_eq_some'.mp hq2
        rw [← hpq]
        rfl
      · rw [if_neg hj2] at hq2
        exact selected_unique s.tabs hone j pj hpj hpjs m q
          (fun hmj => hj2 hmj.symm) hq2
    constructor
    · intro hqt
      rw [hqf] at hqt
      exact Bool.noConfusion hqt
    · intro hmeq
      exact absurd hmeq.symm hm

/-- Witness for C5 (amended) at a concrete input. -/
theorem C5_witness :
    ∃ s', setActiveIndex c5w 1 = some s' ∧
      ∀ m q, s'.tabs[m]? = some q → (q.selected = true ↔ m = (1 : Int).toNat) :=
  C5_amended c5w 1 0 ⟨false, false, false, false⟩ (by decide) (by decide) (by decide)
    (by decide) (by decide) (by decide) (by decide)

/-- C5 counterexample: in `c5state` no panel is selected; index 0 is in
range, panel 0 is not disabled, and the guard is clear, yet the setter
throws a `TypeError` (`findSelectedTab()` is `null`), so no state with
`tabs[0].selected = true` results. -/
theorem C5_counterexample :
    c5state.preventActiveIndexPropagation = false ∧
    ((0 : Int) ≤ 0 ∧ (0 : Int) < (c5state.tabs.length : Int)) ∧
    (c5state.tabs[0]?).map Panel.disabled = some false ∧
    findSelIdx c5state.tabs = none ∧
    setActiveIndex c5state 0 = none := by decide

/-- C6 (amended): at `initTabs` with non-empty `tabs` and no panel
selected, an `activeIndex` in `[0, tabs.length)` selects that panel, and
an unset `activeIndex` or one that is at least `tabs.length` falls back to
selecting index 0. (For negative values the claim fails: see the
counterexample — `initTabs` throws instead of falling back.) -/
theorem C6_amended (s : TabState) (hnone : findSelIdx s.tabs = none)
    (hlen : s.tabs.length ≠ 0) :
    (∀ k : Nat, s._activeIndex = some (k : Int) → k < s.tabs.length →
      initTabs s =
        some { s with
                tabs := modifyAt (fun p => p.setSelected true) k s.tabs
                tabChanged := true }) ∧
    ((s._activeIndex = none ∨
        ∃ v : Int, s._activeIndex = some v ∧ (s.tabs.length : Int) ≤ v) →
      initTabs s =
        some { s with
                tabs := modifyAt (fun p => p.setSelected true) 0 s.tabs
                tabChanged := true }) := by
  constructor
  · intro k ha hk
    have h := initTabs_eq_at_index s (k : Int) hnone hlen ha
      (by exact_mod_cast hk) (Int.natCast_nonneg k)
    simpa [Int.toNat_natCast] using h
  · intro h
    rcases h with ha | ⟨v, ha, hv⟩
    · exact initTabs_eq_fallback_undefined s hnone hlen ha
    · exact initTabs_eq_fallback_over s v hnone hlen ha (by omega)

/-- Witness for C6 (amended) at a concrete input: `activeIndex = 5` with
two panels falls back to selecting index 0. -/
theorem C6_witness :
    initTabs c6state =
      some { c6state with
              tabs := modifyAt (fun p => p.setSelected true) 0 c6state.tabs
              tabChanged := true } :=
  (C6_amended c6state (by decide) (by decide)).2 (Or.inr ⟨5, by decide, by decide⟩)

/-- C6 counterexample: with two fresh panels and `activeIndex = -1` the
guard `tabs.length > activeIndex` passes (it has no lower bound), so
`initTabs` runs `tabs[-1].selected = true` and throws a `TypeError`
instead of falling back to selecting index 0. -/
theorem C6_counterexample :
    findSelIdx (initialState [false, false] (some (-1))).tabs = none ∧
    (initialState [false, false] (some (-1))).tabs.length = 2 ∧
    initTabs (initialState [false, false] (some (-1))) = none := by decide

/-- C7 (amended): `closeTab` on a disabled panel changes no panel state
(the panel is not marked closed and the selection is untouched), but the
surrounding `close` method still emits the `onClose` notification
`{originalEvent, index}` — in controlled and non-controlled mode alike. -/
theorem C7_close_disabled (s : TabState) (i : Nat) (tab : Panel) (cc : Bool)
    (hget : s.tabs[i]? = some tab) (hdis : tab.disabled = true) :
    closeOp s i cc = (s, [Ev.closeEvent (findTabIndex s.tabs i)]) := by
  cases cc with
  | true => rfl
  | false => simp [closeOp, closeTab_eq_disabled s i tab hget hdis]

/-- Witness for C7 (amended) at a concrete input. -/
theorem C7_witness :
    closeOp c7state 1 false = (c7state, [Ev.closeEvent (findTabIndex c7state.tabs 1)]) :=
  C7_close_disabled c7state 1 ⟨false, true, false, false⟩ false (by decide) (by decide)

/-- C7 counterexample: closing the disabled panel 1 of `c7state` leaves
the state unchanged but emits `onClose` with index 1, refuting "no close
notification is emitted". -/
theorem C7_counterexample :
    (c7state.tabs[1]?).map Panel.disabled = some true ∧
    closeOp c7state 1 false = (c7state, [Ev.closeEvent 1]) ∧
    (closeOp c7state 1 false).2 ≠ [] := by decide

/-- C8: `open` on a non-disabled, unselected panel at position `i`
performs, in order: deselect the current panel, select the target (dirty
flag set), set the re-entrancy guard, emit `activeIndexChange i`, emit the
change notification with index `i`, then request scroll-into-view — the
trace is exactly those three effects in that order, both notifications
carry the new panel's index and see the updated selection, and a
synchronous write-back of `i` into the `activeIndex` setter during the
emission only consumes the guard: it re-runs no selection logic. -/
theorem C8_open_ordering (s : TabState) (i : Nat) (tab : Panel)
    (hget : s.tabs[i]? = some tab) (hdis : tab.disabled = false)
    (hsel : tab.selected = false) :
    (openOp s i).2 =
      [Ev.activeIndexChange (i : Int), Ev.change (i : Int), Ev.scrollTo (i : Int)] ∧
    ((openOp s i).1.tabs[i]?).map Panel.selected = some true ∧
    (∀ j, findSelIdx s.tabs = some j →
      ((openOp s i).1.tabs[j]?).map Panel.selected = some false) ∧
    (openOp s i).1.preventActiveIndexPropagation = true ∧
    (openOp s i).1.tabChanged = true ∧
    setActiveIndex (openOp s i).1 (i : Int) =
      some { (openOp s i).1 with
              _activeIndex := some (i : Int)
              preventActiveIndexPropagation := false } := by
  have hi : i < s.tabs.length := lt_length_of_get? s.tabs i tab hget
  rw [openOp_eq_select s i tab hget hdis hsel]
  refine ⟨rfl, ?_, ?_, rfl, rfl, ?_⟩
  · show ((modifyAt (fun p => p.setSelected true) i
        (deselectCurrent s.tabs))[i]?).map Panel.selected = some true
    rw [modifyAt_get?, if_pos rfl]
    obtain ⟨p0, hp0⟩ := exists_getElem? (deselectCurrent s.tabs) i
      (by rw [deselectCurrent_length]; exact hi)
    rw [hp0]
    rfl
  · intro j hj
    obtain ⟨pj, hpj, hpjs⟩ := findSelIdx_some_selected s.tabs j hj
    have hji : i ≠ j := by
      intro he
      subst he
      rw [hget] at hpj
      injection hpj with h2
      subst h2
      rw [hsel] at hpjs
      exact Bool.noConfusion hpjs
    show ((modifyAt (fun p => p.setSelected true) i
        (deselectCurrent s.tabs))[j]?).map Panel.selected = some false
    rw [modifyAt_get?, if_neg hji, deselectCurrent_at s.tabs j pj hj hpj]
    rfl
  · exact setActiveIndex_eq_guarded _ _ rfl

/-- Witness for C8 at a concrete input. -/
theorem C8_witness :
    (openOp c8state 1).2 =
      [Ev.activeIndexChange (1 : Int), Ev.change (1 : Int), Ev.scrollTo (1 : Int)] ∧
    ((openOp c8state 1).1.tabs[1]?).map Panel.selected = some true ∧
    (∀ j, findSelIdx c8state.tabs = some j →
      ((openOp c8state 1).1.tabs[j]?).map Panel.selected = some false) ∧
    (openOp c8state 1).1.preventActiveIndexPropagation = true ∧
    (openOp c8state 1).1.tabChanged = true ∧
    setActiveIndex (openOp c8state 1).1 (1 : Int) =
      some { (openOp c8state 1).1 with
              _activeIndex := some (1 : Int)
              preventActiveIndexPropagation := false } :=
  C8_open_ordering c8state 1 ⟨false, false, false, false⟩ (by decide) (by decide) (by decide)

/-- C9: with physically consistent geometry (the visible page width
`contentWidth - buttonWidths` is non-negative and the starting offset lies
in the scrollable range), `navBackward` moves the scroll position back by
exactly one page width and `navForward` forward by the same amount, both
clamped to `[0, scrollWidth - visibleWidth]`. -/
theorem C9_nav_clamped (cw bw sw sl : ℚ)
    (hw : 0 ≤ cw - bw) (h0 : 0 ≤ sl) (hs : sl ≤ sw - (cw - bw)) :
    navBackward cw bw sl = max 0 (min (sl - (cw - bw)) (sw - (cw - bw))) ∧
    navForward cw bw sw sl = max 0 (min (sl + (cw - bw)) (sw - (cw - bw))) := by
  constructor
  · show (if sl - (cw - bw) ≤ 0 then (0 : ℚ) else sl - (cw - bw)) =
      max 0 (min (sl - (cw - bw)) (sw - (cw - bw)))
    by_cases hp : sl - (cw - bw) ≤ 0
    · rw [if_pos hp, eq_comm, max_eq_left (le_trans (min_le_left _ _) hp)]
    · rw [if_neg hp, min_eq_left (by linarith), max_eq_right (by linarith)]
  · show (if sl + (cw - bw) ≥ sw - (cw - bw) then sw - (cw - bw) else sl + (cw - bw)) =
      max 0 (min (sl + (cw - bw)) (sw - (cw - bw)))
    by_cases hp : sl + (cw - bw) ≥ sw - (cw - bw)
    · rw [if_pos hp, min_eq_right (by linarith), max_eq_right (by linarith)]
    · rw [if_neg hp, min_eq_left (by linarith), max_eq_right (by linarith)]

/-- Witness for C9 at concrete geometry. -/
theorem C9_witness :
    navBackward 10 2 8 = max 0 (min ((8 : ℚ) - (10 - 2)) (30 - (10 - 2))) ∧
    navForward 10 2 30 8 = max 0 (min ((8 : ℚ) + (10 - 2)) (30 - (10 - 2))) :=
  C9_nav_clamped 10 2 30 8 (by norm_num) (by norm_num) (by norm_num)

/-- C10: when no panel is selected, the guard is clear and the index is in
range, the `activeIndex` setter dereferences the `null` result of
`findSelectedTab` and throws, instead of selecting the target panel: the
in-range branch has "some panel is selected" as an unstated
precondition. -/
theorem C10_setter_null_deref (s : TabState) (v : Int)
    (hflag : s.preventActiveIndexPropagation = false)
    (hnone : findSelIdx s.tabs = none)
    (h0 : 0 ≤ v) (hv : v < (s.tabs.length : Int)) :
    setActiveIndex s v = none := by
  have hlen : 0 < s.tabs.length := by
    by_contra hcon
    have h2 : s.tabs.length = 0 := by omega
    rw [h2] at hv
    omega
  exact setActiveIndex_eq_crash_no_selection s v hflag hlen hv hnone

/-- Witness for C10 at a concrete input. -/
theorem C10_witness : setActiveIndex c10state 0 = none :=
  C10_setter_null_deref c10state 0 (by decide) (by decide) (by decide) (by decide)

end TabViewSpec

